import Mathlib

/-!
Shallow embedding of the C interface declared in `src/editor/include/editor.h`
of the `tether` repository, together with proofs of the interface-level
properties stated in its specification.

The header declares (and this file embeds):

  typedef void *Renderer;
  typedef void *Editor;
  #define ARENA_ALIGN (alignof(max_align_t))
  Renderer renderer_create(id view, id device);
  Renderer renderer_draw(Renderer renderer, id view);
  void renderer_resize(Renderer renderer, CGSize new_size);
  void renderer_handle_keydown(Renderer renderer, NSEvent *event);
  void renderer_handle_scroll(Renderer renderer, CGFloat dx, CGFloat dy,
                              NSEventPhase phase);
  void renderer_insert_text(Renderer renderer, const char *text, size_t len);
  size_t renderer_get_val(Renderer);

No function bodies exist in the excerpt, so claims about behaviour of the
missing bodies are settled against definitions explicitly modelled from the
specification text (marked as such in their doc comments).
-/

/-- Names introduced by `typedef` in the header. -/
inductive TypedefName where
  | renderer
  | editor
deriving DecidableEq, Repr

/-- Syntactic C types as they appear in the header text.  A use of a
typedef-introduced name is recorded as `named`, so that the syntactic
appearance of `Renderer` or `Editor` in a signature is distinguishable from
the underlying type it resolves to. -/
inductive CType where
  | void
  | char
  | objcId
  | cgSize
  | nsEvent
  | cgFloat
  | nsEventPhase
  | size_t
  | ptr (pointee : CType)
  | constPtr (pointee : CType)
  | named (n : TypedefName)
deriving DecidableEq, Repr

/-- The right-hand side of each typedef in the header: both `Renderer` and
`Editor` are defined as `void *`. -/
def typedefDef : TypedefName → CType
  | .renderer => .ptr .void
  | .editor => .ptr .void

/-- Resolve typedef names to their underlying C type, as the C type system
does: after resolution, no `named` constructor remains. -/
def resolveTy : CType → CType
  | .named n => typedefDef n
  | .ptr t => .ptr (resolveTy t)
  | .constPtr t => .constPtr (resolveTy t)
  | t => t

/-- A C function prototype: name, parameter types (in order), return type. -/
structure FunDecl where
  name : String
  params : List CType
  ret : CType
deriving DecidableEq, Repr

/-- The compile-time expression used as the body of the `ARENA_ALIGN` macro:
`alignof(max_align_t)`. -/
inductive AlignExpr where
  | alignofMaxAlignT
deriving DecidableEq, Repr

/-- A top-level declaration of the header: a typedef, an object-like macro
defining an alignment constant, or a function prototype. -/
inductive HeaderDecl where
  | typedefDecl (n : TypedefName) (rhs : CType)
  | constDecl (name : String) (body : AlignExpr)
  | funDecl (f : FunDecl)
deriving DecidableEq, Repr

/-- The full declaration surface of `src/editor/include/editor.h`, in source
order (the `#include` lines introduce no declarations of this interface). -/
def editor_h : List HeaderDecl :=
  [ .typedefDecl .renderer (typedefDef .renderer),
    .typedefDecl .editor (typedefDef .editor),
    .constDecl "ARENA_ALIGN" .alignofMaxAlignT,
    .funDecl ⟨"renderer_create", [.objcId, .objcId], .named .renderer⟩,
    .funDecl ⟨"renderer_draw", [.named .renderer, .objcId], .named .renderer⟩,
    .funDecl ⟨"renderer_resize", [.named .renderer, .cgSize], .void⟩,
    .funDecl ⟨"renderer_handle_keydown", [.named .renderer, .ptr .nsEvent], .void⟩,
    .funDecl ⟨"renderer_handle_scroll",
        [.named .renderer, .cgFloat, .cgFloat, .nsEventPhase], .void⟩,
    .funDecl ⟨"renderer_insert_text",
        [.named .renderer, .constPtr .char, .size_t], .void⟩,
    .funDecl ⟨"renderer_get_val", [.named .renderer], .size_t⟩ ]

/-- The function prototypes of the header, extracted from the declaration
list. -/
def editor_h_functions : List FunDecl :=
  editor_h.filterMap fun d =>
    match d with
    | .funDecl f => some f
    | _ => none

/-- The typedef names declared by the header, extracted from the declaration
list. -/
def editor_h_typedefs : List TypedefName :=
  editor_h.filterMap fun d =>
    match d with
    | .typedefDecl n _ => some n
    | _ => none

/-- The constant names defined by the header, extracted from the declaration
list. -/
def editor_h_constants : List String :=
  editor_h.filterMap fun d =>
    match d with
    | .constDecl n _ => some n
    | _ => none

/-- Look up a function prototype of the header by name. -/
def findDecl (s : String) : Option FunDecl :=
  editor_h_functions.find? fun f => f.name == s

/-- A description of a target platform, as far as the header consults it: the
alignment of `max_align_t`, the maximum-alignment scalar type. -/
structure Platform where
  maxAlignTAlign : Nat

/-- Evaluate an alignment expression on a given platform. -/
def evalAlignExpr (p : Platform) : AlignExpr → Nat
  | .alignofMaxAlignT => p.maxAlignTAlign

/-- Whether a syntactic C type mentions the given typedef name anywhere. -/
def mentionsTypedef (n : TypedefName) : CType → Bool
  | .named m => m == n
  | .ptr t => mentionsTypedef n t
  | .constPtr t => mentionsTypedef n t
  | _ => false

/-- Whether a function prototype mentions the given typedef name in any
parameter type or in its return type. -/
def declMentions (n : TypedefName) (f : FunDecl) : Bool :=
  mentionsTypedef n f.ret || f.params.any (mentionsTypedef n)

/-- C scalar types that could serve as a status value (integers, enums,
floating point); object and aggregate types are not status scalars. -/
def isStatusScalar : CType → Bool
  | .size_t => true
  | .cgFloat => true
  | .nsEventPhase => true
  | .char => true
  | _ => false

/-- Whether a parameter type is a status out-parameter: a writable pointer to
a status scalar.  Const-qualified pointers and pointers to object or
aggregate types are not out-parameters for status. -/
def isStatusOutParam (t : CType) : Bool :=
  match resolveTy t with
  | .ptr u => isStatusScalar u
  | _ => false

/-- C floating point types appearing in the header (`CGFloat` is defined by
CoreGraphics as `double` on 64-bit platforms, `float` on 32-bit ones). -/
def isFloatType : CType → Bool
  | .cgFloat => true
  | _ => false

/-- C enumeration types appearing in the header (`NSEventPhase` is an
`NS_OPTIONS` enumeration of AppKit). -/
def isEnumType : CType → Bool
  | .nsEventPhase => true
  | _ => false

/-- Whether a pointer of the given resolved C type admits the null pointer as
a value. -/
def isNullable : CType → Bool
  | .ptr _ => true
  | .constPtr _ => true
  | _ => false

/-- Two C types are compatible for assignment and argument passing exactly
when they resolve to the same underlying type (typedefs create aliases, not
distinct types). -/
def compatible (a b : CType) : Bool :=
  resolveTy a == resolveTy b

/-- Whether the characters `pat` occur contiguously inside `s`. -/
def containsSub (pat : List Char) : List Char → Bool
  | [] => pat.isEmpty
  | c :: rest => pat.isPrefixOf (c :: rest) || containsSub pat rest

/-- Whether a function name contains a word conventionally naming an
operation that ends a handle lifetime. -/
def isLifetimeEndingName (s : String) : Bool :=
  ["destroy", "release", "free", "delete", "teardown", "dispose",
   "close"].any fun w => containsSub w.toList s.toList

/-- Whether a prototype is a constructor of the `Renderer` handle: it returns
a `Renderer` and takes no `Renderer` among its parameters. -/
def createsRenderer (f : FunDecl) : Bool :=
  f.ret == .named .renderer && !(f.params.any (mentionsTypedef .renderer))

/-- Whether a prototype operates on an existing `Renderer` handle: it takes a
`Renderer` among its parameters. -/
def opsOnRenderer (f : FunDecl) : Bool :=
  f.params.any fun t => t == .named .renderer

/-- Modelled from the spec: the body of `renderer_create` is absent from the
excerpt.  Section 8 of the spec requires only that a stub return a non-null
handle whose state is initialised the same way on every run; allocator
nondeterminism is made explicit through an `allocSeed` parameter that decides
the address of the handle but not its contents.  View and device objects are
modelled as pointer values (`Nat`, with 0 the null pointer). -/
structure RendererState where
  addr : Nat
  val : Nat
deriving DecidableEq, Repr

/-- Modelled from the spec: `renderer_create` allocates a handle at an
allocator-chosen address and initialises its observable debug value to a
fixed stub value, independent of the allocator. -/
def renderer_create (view device allocSeed : Nat) : RendererState :=
  { addr := allocSeed + 1 + view + device, val := 0 }

/-- Modelled from the spec: `renderer_get_val` is the debug introspection
accessor reading the internal counter of the handle. -/
def renderer_get_val (r : RendererState) : Nat :=
  r.val

/-- Modelled from the spec: a view/device pair is valid when both
host-framework references are non-null. -/
def ValidViewDevice (view device : Nat) : Prop :=
  view ≠ 0 ∧ device ≠ 0

instance (view device : Nat) : Decidable (ValidViewDevice view device) :=
  inferInstanceAs (Decidable (And _ _))

/-- Read the first `len` bytes of the caller buffer, in order; bytes at or
beyond index `len` are never consulted. -/
def readBytes (mem : Nat → Nat) : Nat → List Nat
  | 0 => []
  | n + 1 => readBytes mem n ++ [mem n]

/-- Modelled from the spec: the body of `renderer_insert_text` is absent from
the excerpt.  Its prototype receives the text as `const char *` bounded by an
explicit `len`, so whatever the unknown editor effect `eff` does to renderer
state, it consumes exactly the first `len` bytes of the buffer and the buffer
itself is returned unmodified. -/
def renderer_insert_text (eff : RendererState → List Nat → RendererState)
    (st : RendererState) (mem : Nat → Nat) (len : Nat) :
    RendererState × (Nat → Nat) :=
  (eff st (readBytes mem len), mem)

/-- readBytes only depends on the bytes below `len`. -/
theorem readBytes_congr (mem mem2 : Nat → Nat) (len : Nat)
    (h : ∀ i, i < len → mem i = mem2 i) :
    readBytes mem len = readBytes mem2 len := by
  induction len with
  | zero => rfl
  | succ n ih =>
      simp only [readBytes]
      rw [ih fun i hi => h i (Nat.lt_succ_of_lt hi), h n (Nat.lt_succ_self n)]

/-- C1: the declared interface consists of exactly seven functions on a
Renderer handle (five operational entry points and the two debug entry
points), the two handle typedefs Renderer and Editor, the constant
ARENA_ALIGN, and nothing else. -/
theorem C1_interface_surface :
    editor_h_functions.map FunDecl.name =
      ["renderer_create", "renderer_draw", "renderer_resize",
       "renderer_handle_keydown", "renderer_handle_scroll",
       "renderer_insert_text", "renderer_get_val"] ∧
    editor_h_typedefs = [.renderer, .editor] ∧
    editor_h_constants = ["ARENA_ALIGN"] ∧
    editor_h.length = 10 := by
  decide

/-- C2: renderer_draw takes an existing Renderer and a view object and
returns a Renderer handle, while the other mutating operations
renderer_resize, renderer_handle_keydown, renderer_handle_scroll and
renderer_insert_text all return void. -/
theorem C2_draw_returns_renderer :
    findDecl "renderer_draw" =
      some ⟨"renderer_draw", [.named .renderer, .objcId], .named .renderer⟩ ∧
    ((editor_h_functions.filter fun f =>
        ["renderer_resize", "renderer_handle_keydown",
         "renderer_handle_scroll", "renderer_insert_text"].contains f.name).map
      FunDecl.ret) = [.void, .void, .void, .void] := by
  decide

/-- C3: no signature carries an error/result channel, a nullable-handle
convention, or a status out-parameter: renderer_create and renderer_draw
return a bare Renderer, renderer_get_val returns a bare size value, every
other operation returns void, and no parameter is a writable pointer to a
status scalar. -/
theorem C3_no_error_channel :
    (editor_h_functions.all fun f =>
      (f.ret == .named .renderer || f.ret == .void || f.ret == .size_t)
      && f.params.all fun t => !isStatusOutParam t) = true ∧
    (findDecl "renderer_create").map FunDecl.ret = some (.named .renderer) ∧
    (findDecl "renderer_draw").map FunDecl.ret = some (.named .renderer) ∧
    (findDecl "renderer_get_val").map FunDecl.ret = some .size_t ∧
    ((editor_h_functions.filter fun f =>
        !(["renderer_create", "renderer_draw",
           "renderer_get_val"].contains f.name)).all
      fun f => f.ret == .void) = true := by
  decide

/-- C4: renderer_handle_scroll takes exactly a Renderer handle, a horizontal
floating-point delta, a vertical floating-point delta and a scroll-phase
enumeration, in that order, and returns void. -/
theorem C4_scroll_signature :
    findDecl "renderer_handle_scroll" =
      some ⟨"renderer_handle_scroll",
        [.named .renderer, .cgFloat, .cgFloat, .nsEventPhase], .void⟩ ∧
    isFloatType .cgFloat = true ∧
    isEnumType .nsEventPhase = true := by
  decide

/-- C5: the constant ARENA_ALIGN is defined as alignof(max_align_t), so on
every platform it evaluates to the alignment of that platform's
maximum-alignment scalar type. -/
theorem C5_arena_align (p : Platform) :
    editor_h.contains (.constDecl "ARENA_ALIGN" .alignofMaxAlignT) = true ∧
    evalAlignExpr p .alignofMaxAlignT = p.maxAlignTAlign :=
  ⟨by decide, rfl⟩

/-- Witness for C5 at the concrete platform whose max_align_t alignment
is 16. -/
theorem C5_arena_align_witness :
    editor_h.contains (.constDecl "ARENA_ALIGN" .alignofMaxAlignT) = true ∧
    evalAlignExpr ⟨16⟩ .alignofMaxAlignT = 16 :=
  C5_arena_align ⟨16⟩

/-- C6: the Editor typedef is declared by the header but no function
signature mentions it in any parameter or return type. -/
theorem C6_editor_unused :
    editor_h_typedefs.contains .editor = true ∧
    (editor_h_functions.all fun f => !declMentions .editor f) = true := by
  decide

/-- C7: no declared function name contains a lifetime-ending word such as
destroy, release, free or delete, and every declared function either creates
a Renderer or takes an existing Renderer parameter; none ends a handle
lifetime. -/
theorem C7_no_destructor :
    (editor_h_functions.all fun f => !isLifetimeEndingName f.name) = true ∧
    (editor_h_functions.all fun f =>
      createsRenderer f || opsOnRenderer f) = true := by
  decide

/-- C8: for every valid view/device pair, renderer_get_val applied right
after renderer_create yields the same value on any two runs, whatever
allocator seeds the two runs used (spec-modelled: the bodies are absent from
the excerpt). -/
theorem C8_get_val_deterministic (view device s1 s2 : Nat)
    (h : ValidViewDevice view device) :
    renderer_get_val (renderer_create view device s1) =
      renderer_get_val (renderer_create view device s2) := by
  cases h
  rfl

/-- Witness for C8: a concrete valid pair and two distinct allocator
seeds. -/
theorem C8_get_val_deterministic_witness :
    ValidViewDevice 4 7 ∧
    renderer_get_val (renderer_create 4 7 0) =
      renderer_get_val (renderer_create 4 7 99) :=
  ⟨by decide, C8_get_val_deterministic 4 7 0 99 (by decide)⟩

/-- C9: Renderer and Editor both resolve to the single C type void pointer,
so the interface draws no compile-time distinction between the two handle
kinds, any such pointer value is accepted where a Renderer is expected, and
the resolved type admits the null pointer. -/
theorem C9_handles_same_type :
    resolveTy (.named .renderer) = .ptr .void ∧
    resolveTy (.named .editor) = .ptr .void ∧
    compatible (.named .editor) (.named .renderer) = true ∧
    compatible (.named .renderer) (.named .editor) = true ∧
    isNullable (resolveTy (.named .renderer)) = true := by
  decide

/-- Concrete buffer for the C10 witness: every byte is 65, so it carries no
NUL terminator at all. -/
def memA : Nat → Nat :=
  fun _ => 65

/-- Concrete buffer for the C10 witness: agrees with memA on the first two
bytes and differs beyond them. -/
def memB : Nat → Nat :=
  fun i => if i < 2 then 65 else 0

/-- Concrete editor effect for the C10 witness: record how many bytes were
inserted. -/
def effA : RendererState → List Nat → RendererState :=
  fun st bs => { st with val := st.val + bs.length }

/-- C10: renderer_insert_text declares its text parameter as a const char
pointer together with an explicit length; for every call the caller buffer
is returned unmodified, and the call depends only on the first len bytes of
the buffer, so no NUL terminator is required (spec-modelled: the body is
absent from the excerpt). -/
theorem C10_insert_text_frame
    (eff : RendererState → List Nat → RendererState)
    (st : RendererState) (mem mem2 : Nat → Nat) (len : Nat)
    (h : ∀ i, i < len → mem i = mem2 i) :
    (findDecl "renderer_insert_text").map FunDecl.params =
      some [.named .renderer, .constPtr .char, .size_t] ∧
    (renderer_insert_text eff st mem len).2 = mem ∧
    (renderer_insert_text eff st mem len).1 =
      (renderer_insert_text eff st mem2 len).1 := by
  refine ⟨by decide, rfl, ?_⟩
  simp only [renderer_insert_text]
  rw [readBytes_congr mem mem2 len h]

/-- Witness for C10: a buffer with no NUL byte and a buffer differing from
it only beyond index 2 give identical calls of length 2, and the buffer
comes back unchanged. -/
theorem C10_insert_text_frame_witness :
    (findDecl "renderer_insert_text").map FunDecl.params =
      some [.named .renderer, .constPtr .char, .size_t] ∧
    (renderer_insert_text effA ⟨1, 0⟩ memA 2).2 = memA ∧
    (renderer_insert_text effA ⟨1, 0⟩ memA 2).1 =
      (renderer_insert_text effA ⟨1, 0⟩ memB 2).1 := by
  have h : ∀ i, i < 2 → memA i = memB i := by
    intro i hi
    simp [memA, memB, hi]
  exact C10_insert_text_frame effA ⟨1, 0⟩ memA memB 2 h
